import Mathlib

/-!
Shallow embedding of the TechWaan-ERP storage layer (`server/storage.ts`,
route handlers in `server/routes.ts`, table/validation schemas in
`shared/schema.ts`).

The persistent PostgreSQL state is modelled as lists of rows appended in
insertion order.  A single logical clock `now` supplies both generated row
ids and `created_at` / `last_updated` timestamps (the real code uses
`gen_random_uuid()` and `new Date()`; only freshness and relative order of
these values are ever observed by the embedded operations).  Foreign-key
and unique column constraints declared in `shared/schema.ts` are enforced
at each insert, as PostgreSQL does; a failed statement writes nothing, and
— because the code opens no transaction — earlier statements of the same
request remain committed.
-/

namespace ERP

/-- A row of the `inventory` table (the stock projection): one row per item,
created at quantity 0 by `createItem`. -/
structure InventoryRow where
  itemId : String
  quantity : Int
  lastUpdated : Nat
deriving Repr, DecidableEq

/-- A row of the `stock_movements` table (the append-only ledger).
`type` is one of the strings `"purchase"`, `"sale"`, `"adjustment"`
(the column is an unconstrained varchar). -/
structure StockMovementRow where
  id : Nat
  itemId : String
  type : String
  quantity : Int
  reason : Option String
  createdAt : Nat
deriving Repr, DecidableEq

/-- A row of the `bills` table.  Money columns (`decimal(10,2)`) are
modelled as integers in the smallest currency unit. -/
structure BillRow where
  id : Nat
  billNumber : String
  customerId : String
  subtotal : Int
  gstAmount : Int
  total : Int
  status : String
  createdAt : Nat
deriving Repr, DecidableEq

/-- A row of the `bill_items` table. -/
structure BillItemRow where
  id : Nat
  billId : Nat
  itemId : String
  quantity : Int
  rate : Int
  amount : Int
deriving Repr, DecidableEq

/-- A row of the `purchases` table. -/
structure PurchaseRow where
  id : Nat
  purchaseNumber : String
  vendorId : String
  total : Int
  createdAt : Nat
deriving Repr, DecidableEq

/-- A row of the `purchase_items` table. -/
structure PurchaseItemRow where
  id : Nat
  purchaseId : Nat
  itemId : String
  quantity : Int
  rate : Int
  amount : Int
deriving Repr, DecidableEq

/-- The database state.  `items`, `customers`, `vendors` and `users` are
kept as lists of primary-key ids: the embedded operations read no other
column of those tables, but their ids participate in the foreign-key
constraints of `shared/schema.ts`. -/
structure DBState where
  items : List String
  customers : List String
  vendors : List String
  users : List String
  inventory : List InventoryRow
  stockMovements : List StockMovementRow
  bills : List BillRow
  billItems : List BillItemRow
  purchases : List PurchaseRow
  purchaseItems : List PurchaseItemRow
  now : Nat
deriving Repr, DecidableEq

/-- Failure modes of the embedded statements: PostgreSQL constraint errors
(foreign key, unique), the drizzle-orm error thrown by `.values([])`, and
a zod schema rejection in a route handler. -/
inductive DBErr where
  | fkViolation
  | uniqueViolation
  | emptyValues
  | validationError
deriving Repr, DecidableEq

/-- `orderBy(desc(createdAt)).limit(1)`: the row with the greatest
timestamp (on equal timestamps the later row of the list wins; the
embedded states assign strictly increasing timestamps, so ties never
matter). -/
def latestBy (f : α → Nat) : List α → Option α
  | [] => none
  | x :: xs =>
    match latestBy f xs with
    | none => some x
    | some y => if f x > f y then some x else some y

/-- `getInventoryByItem` (storage.ts:280): `select ... where eq(inventory.itemId, itemId)`,
first matching row. -/
def findInv (itemId : String) (l : List InventoryRow) : Option InventoryRow :=
  l.find? (fun r => r.itemId == itemId)

/-- `updateInventory` (storage.ts:285): `update inventory set {quantity, lastUpdated}
where eq(inventory.itemId, itemId) returning`.  Rewrites every matching row;
returns the first updated row (`undefined` — `none` — when no row matches).
This is also the body of the `PATCH /api/inventory/:itemId` route handler. -/
def updateInventory (itemId : String) (quantity : Int) (s : DBState) :
    Option InventoryRow × DBState :=
  let upd := s.inventory.map (fun r =>
    if r.itemId == itemId then { r with quantity := quantity, lastUpdated := s.now } else r)
  (upd.find? (fun r => r.itemId == itemId),
   { s with inventory := upd, now := s.now + 1 })

/-- Client-supplied columns of a `stock_movements` insert
(`insertStockMovementSchema` omits only `id` and `createdAt`; it adds no
refinement, so any integer quantity and any `type` string pass). -/
structure InsertStockMovement where
  itemId : String
  type : String
  quantity : Int
  reason : Option String
deriving Repr, DecidableEq

/-- `db.insert(stockMovements).values(movement).returning()` (storage.ts:332):
fails on the `item_id references items.id` constraint when the item does not
exist, otherwise appends the row. -/
def insertStockMovementRow (m : InsertStockMovement) (s : DBState) :
    Except DBErr StockMovementRow × DBState :=
  if s.items.contains m.itemId then
    let row : StockMovementRow :=
      { id := s.now, itemId := m.itemId, type := m.type,
        quantity := m.quantity, reason := m.reason, createdAt := s.now }
    (.ok row, { s with stockMovements := s.stockMovements ++ [row], now := s.now + 1 })
  else
    (.error .fkViolation, s)

/-- `createStockMovement` (storage.ts:331-349): insert the ledger row, then —
in a second, separate statement — re-read the inventory row and, if one
exists, write back the clamped new quantity.  There is no quantity or type
validation and no transaction around the two writes. -/
def createStockMovement (m : InsertStockMovement) (s : DBState) :
    Except DBErr StockMovementRow × DBState :=
  match insertStockMovementRow m s with
  | (.error e, s1) => (.error e, s1)
  | (.ok row, s1) =>
    match findInv m.itemId s1.inventory with
    | none => (.ok row, s1)
    | some currentInventory =>
      let newQuantity : Int :=
        if m.type == "purchase" then currentInventory.quantity + m.quantity
        else if m.type == "sale" then currentInventory.quantity - m.quantity
        else if m.type == "adjustment" then m.quantity
        else currentInventory.quantity
      let u := updateInventory m.itemId (max 0 newQuantity) s1
      (.ok row, u.2)

/-- `String(n).padStart(3, '0')`. -/
def pad3 (n : Nat) : String :=
  let str := toString n
  if str.length ≥ 3 then str
  else String.mk (List.replicate (3 - str.length) '0') ++ str

/-- JavaScript `split('-')`: cut the character list at every `'-'`
(structural recursion so that concrete instances evaluate in the kernel). -/
def splitDashAux (acc : List Char) : List Char → List String
  | [] => [String.mk acc.reverse]
  | c :: cs =>
    if c = '-' then String.mk acc.reverse :: splitDashAux [] cs
    else splitDashAux (c :: acc) cs

/-- `num.split('-')`. -/
def splitDash (num : String) : List String := splitDashAux [] num.toList

/-- `num.split('-')[2]`; an out-of-range index yields `undefined`, which
`parseInt` turns into `NaN` — modelled by the empty string, on which
`parseIntJS` returns `none`. -/
def suffixPart (num : String) : String :=
  match (splitDash num).drop 2 with
  | [] => ""
  | sfx :: _ => sfx

/-- JavaScript `parseInt` on the strings this code produces: the maximal
leading run of digits, `none` for `NaN`. -/
def parseIntJS (str : String) : Option Nat :=
  let digits := str.toList.takeWhile (fun c => c.isDigit)
  if digits.isEmpty then none
  else some (digits.foldl (fun a c => a * 10 + (c.toNat - 48)) 0)

/-- `getNextBillNumber` (storage.ts:450-463): read the single most recently
created bill (not the highest number, not filtered by year), parse the third
`-`-separated field, add one, zero-pad to 3 digits under the hardcoded
prefix `INV-2024-`.  `"INV-2024-NaN"` is what the JavaScript produces when
the parse yields `NaN`. -/
def getNextBillNumber (s : DBState) : String :=
  match latestBy BillRow.createdAt s.bills with
  | none => "INV-2024-001"
  | some lastBill =>
    match parseIntJS (suffixPart lastBill.billNumber) with
    | some lastNumber => "INV-2024-" ++ pad3 (lastNumber + 1)
    | none => "INV-2024-NaN"

/-- `getNextPurchaseNumber` (storage.ts:555-568): same shape under the
hardcoded prefix `PUR-2024-`. -/
def getNextPurchaseNumber (s : DBState) : String :=
  match latestBy PurchaseRow.createdAt s.purchases with
  | none => "PUR-2024-001"
  | some lastPurchase =>
    match parseIntJS (suffixPart lastPurchase.purchaseNumber) with
    | some lastNumber => "PUR-2024-" ++ pad3 (lastNumber + 1)
    | none => "PUR-2024-NaN"

/-- The `GET /api/bills/next-number` handler body: a single SELECT via
`getNextBillNumber`; no INSERT/UPDATE/DELETE is issued, so the state
component of the result is the input state. -/
def getNextBillNumberRoute (s : DBState) : String × DBState :=
  (getNextBillNumber s, s)

/-- The `GET /api/purchases/next-number` handler body, likewise read-only. -/
def getNextPurchaseNumberRoute (s : DBState) : String × DBState :=
  (getNextPurchaseNumber s, s)

/-- Client-supplied columns of a `bills` insert after the
`POST /api/bills` handler has added `billNumber` and `createdBy`
(`insertBillSchema` omits `id` and `createdAt`; `status` defaults to
`"pending"` at the column). -/
structure InsertBill where
  billNumber : String
  customerId : String
  subtotal : Int
  gstAmount : Int
  total : Int
  status : Option String
  createdBy : String
deriving Repr, DecidableEq

/-- Client-supplied columns of a `bill_items` insert
(`insertBillItemSchema` omits `id` and `billId`). -/
structure InsertBillItem where
  itemId : String
  quantity : Int
  rate : Int
  amount : Int
deriving Repr, DecidableEq

/-- `db.insert(bills).values(bill).returning()` (storage.ts:419): enforces
the unique constraint on `bill_number` and the foreign keys
`customer_id references customers.id`, `created_by references users.id`;
on success appends the row with the defaulted status. -/
def insertBill (b : InsertBill) (s : DBState) : Except DBErr BillRow × DBState :=
  if s.bills.any (fun x => x.billNumber == b.billNumber) then
    (.error .uniqueViolation, s)
  else if !(s.customers.contains b.customerId) then
    (.error .fkViolation, s)
  else if !(s.users.contains b.createdBy) then
    (.error .fkViolation, s)
  else
    let row : BillRow :=
      { id := s.now, billNumber := b.billNumber, customerId := b.customerId,
        subtotal := b.subtotal, gstAmount := b.gstAmount, total := b.total,
        status := b.status.getD "pending", createdAt := s.now }
    (.ok row, { s with bills := s.bills ++ [row], now := s.now + 1 })

/-- `db.insert(billItems).values(billItemsWithBillId)` (storage.ts:426): a
single multi-row INSERT.  drizzle-orm throws on `.values([])`; the
statement fails atomically when any row violates the `item_id` or
`bill_id` foreign key; otherwise all rows are appended. -/
def insertBillItems (billId : Nat) (rows : List InsertBillItem) (s : DBState) :
    Except DBErr (List BillItemRow) × DBState :=
  if rows.isEmpty then
    (.error .emptyValues, s)
  else if !(s.bills.any (fun b => b.id == billId)) then
    (.error .fkViolation, s)
  else if rows.all (fun r => s.items.contains r.itemId) then
    let mk := rows.enum.map (fun p =>
      { id := s.now + p.1, billId := billId, itemId := p.2.itemId,
        quantity := p.2.quantity, rate := p.2.rate, amount := p.2.amount : BillItemRow })
    (.ok mk, { s with billItems := s.billItems ++ mk, now := s.now + rows.length })
  else
    (.error .fkViolation, s)

/-- The `for (const billItem of billItemsData)` loop of `createBill`
(storage.ts:429-436): one `createStockMovement` of type `"sale"` per line,
sequentially; an error aborts the loop with every earlier write kept. -/
def billMovementsLoop (billNumber : String) :
    List InsertBillItem → DBState → Except DBErr Unit × DBState
  | [], s => (.ok (), s)
  | li :: rest, s =>
    match createStockMovement
        { itemId := li.itemId, type := "sale", quantity := li.quantity,
          reason := some ("Sale - Bill " ++ billNumber) } s with
    | (.error e, s1) => (.error e, s1)
    | (.ok _, s1) => billMovementsLoop billNumber rest s1

/-- `createBill` (storage.ts:418-439): header insert, then the line-item
insert, then one stock movement per line — three-plus separate awaited
statements with no surrounding transaction, so a failure keeps every
earlier write.  The source returns the re-read hydrated bill; the header
row carries all the state-relevant data. -/
def createBill (bill : InsertBill) (billItemsData : List InsertBillItem) (s : DBState) :
    Except DBErr BillRow × DBState :=
  match insertBill bill s with
  | (.error e, s1) => (.error e, s1)
  | (.ok newBill, s1) =>
    match insertBillItems newBill.id billItemsData s1 with
    | (.error e, s2) => (.error e, s2)
    | (.ok _, s2) =>
      match billMovementsLoop newBill.billNumber billItemsData s2 with
      | (.error e, s3) => (.error e, s3)
      | (.ok _, s3) => (.ok newBill, s3)

/-- The caller-controlled part of a `POST /api/bills` body
(`billNumber` and `createdBy` are filled in by the handler). -/
structure BillSubmission where
  customerId : String
  subtotal : Int
  gstAmount : Int
  total : Int
  status : Option String
deriving Repr, DecidableEq

/-- `insertBillSchema`'s numeric refinements (shared/schema.ts:258-261):
subtotal, gstAmount and total must be ≥ 0. -/
def validBillData (b : BillSubmission) : Bool :=
  decide (0 ≤ b.subtotal) && decide (0 ≤ b.gstAmount) && decide (0 ≤ b.total)

/-- `insertBillItemSchema`'s refinements (shared/schema.ts:275-278):
quantity ≥ 1, rate ≥ 0, amount ≥ 0. -/
def validBillItemData (li : InsertBillItem) : Bool :=
  decide (1 ≤ li.quantity) && decide (0 ≤ li.rate) && decide (0 ≤ li.amount)

/-- The tail of the `POST /api/bills` handler once a bill number is in
hand: zod-validate the header and every line (a rejection reaches the
catch block before any write), then run `createBill`. -/
def postBillWithNumber (userId : String) (billData : BillSubmission)
    (billNumber : String) (billItemsData : List InsertBillItem) (s : DBState) :
    Except DBErr BillRow × DBState :=
  if validBillData billData && billItemsData.all validBillItemData then
    createBill
      { billNumber := billNumber, customerId := billData.customerId,
        subtotal := billData.subtotal, gstAmount := billData.gstAmount,
        total := billData.total, status := billData.status, createdBy := userId }
      billItemsData s
  else
    (.error .validationError, s)

/-- The `POST /api/bills` handler (routes, lines 323-346): allocate a
number with `getNextBillNumber`, validate, create. -/
def postBill (userId : String) (billData : BillSubmission)
    (billItemsData : List InsertBillItem) (s : DBState) :
    Except DBErr BillRow × DBState :=
  postBillWithNumber userId billData (getNextBillNumber s) billItemsData s

/-- `updateBillStatus` (storage.ts:441-448): `update bills set {status}
where eq(bills.id, id) returning` — an unconditional overwrite of the
status column, whatever the current status; no other table is touched. -/
def updateBillStatus (id : Nat) (status : String) (s : DBState) :
    Option BillRow × DBState :=
  let upd := s.bills.map (fun b => if b.id == id then { b with status := status } else b)
  (upd.find? (fun b => b.id == id), { s with bills := upd })

/-- Client-supplied columns of a `purchases` insert. -/
structure InsertPurchase where
  purchaseNumber : String
  vendorId : String
  total : Int
  createdBy : String
deriving Repr, DecidableEq

/-- Client-supplied columns of a `purchase_items` insert. -/
structure InsertPurchaseItem where
  itemId : String
  quantity : Int
  rate : Int
  amount : Int
deriving Repr, DecidableEq

/-- `db.insert(purchases).values(purchase).returning()` (storage.ts:533):
unique `purchase_number`, foreign keys to vendors and users. -/
def insertPurchase (p : InsertPurchase) (s : DBState) :
    Except DBErr PurchaseRow × DBState :=
  if s.purchases.any (fun x => x.purchaseNumber == p.purchaseNumber) then
    (.error .uniqueViolation, s)
  else if !(s.vendors.contains p.vendorId) then
    (.error .fkViolation, s)
  else if !(s.users.contains p.createdBy) then
    (.error .fkViolation, s)
  else
    let row : PurchaseRow :=
      { id := s.now, purchaseNumber := p.purchaseNumber, vendorId := p.vendorId,
        total := p.total, createdAt := s.now }
    (.ok row, { s with purchases := s.purchases ++ [row], now := s.now + 1 })

/-- `db.insert(purchaseItems).values(...)` (storage.ts:540), as for bills. -/
def insertPurchaseItems (purchaseId : Nat) (rows : List InsertPurchaseItem) (s : DBState) :
    Except DBErr (List PurchaseItemRow) × DBState :=
  if rows.isEmpty then
    (.error .emptyValues, s)
  else if !(s.purchases.any (fun p => p.id == purchaseId)) then
    (.error .fkViolation, s)
  else if rows.all (fun r => s.items.contains r.itemId) then
    let mk := rows.enum.map (fun p =>
      { id := s.now + p.1, purchaseId := purchaseId, itemId := p.2.itemId,
        quantity := p.2.quantity, rate := p.2.rate, amount := p.2.amount : PurchaseItemRow })
    (.ok mk, { s with purchaseItems := s.purchaseItems ++ mk, now := s.now + rows.length })
  else
    (.error .fkViolation, s)

/-- The movement loop of `createPurchase` (storage.ts:543-550): one
`createStockMovement` of type `"purchase"` per line. -/
def purchaseMovementsLoop (purchaseNumber : String) :
    List InsertPurchaseItem → DBState → Except DBErr Unit × DBState
  | [], s => (.ok (), s)
  | li :: rest, s =>
    match createStockMovement
        { itemId := li.itemId, type := "purchase", quantity := li.quantity,
          reason := some ("Purchase - " ++ purchaseNumber) } s with
    | (.error e, s1) => (.error e, s1)
    | (.ok _, s1) => purchaseMovementsLoop purchaseNumber rest s1

/-- `createPurchase` (storage.ts:532-553), symmetric to `createBill`. -/
def createPurchase (purchase : InsertPurchase) (purchaseItemsData : List InsertPurchaseItem)
    (s : DBState) : Except DBErr PurchaseRow × DBState :=
  match insertPurchase purchase s with
  | (.error e, s1) => (.error e, s1)
  | (.ok newPurchase, s1) =>
    match insertPurchaseItems newPurchase.id purchaseItemsData s1 with
    | (.error e, s2) => (.error e, s2)
    | (.ok _, s2) =>
      match purchaseMovementsLoop newPurchase.purchaseNumber purchaseItemsData s2 with
      | (.error e, s3) => (.error e, s3)
      | (.ok _, s3) => (.ok newPurchase, s3)

/-- Projection of a result onto its error, convenient in statements. -/
def errOf : Except DBErr α → Option DBErr
  | .error e => some e
  | .ok _ => none

/-- One ledger-replay step, read off `createStockMovement`'s quantity
computation: add for `"purchase"`, subtract for `"sale"`, replace for
`"adjustment"`, leave unchanged for any other type string, then clamp at
zero exactly as the written-back projection value is clamped. -/
def applyMovement (q : Int) (m : StockMovementRow) : Int :=
  max 0 (if m.type == "purchase" then q + m.quantity
         else if m.type == "sale" then q - m.quantity
         else if m.type == "adjustment" then m.quantity
         else q)

/-- Replay of the ledger for one item from an initial quantity of 0, in
creation order (the list order, which is insertion order). -/
def replay (itemId : String) (s : DBState) : Int :=
  (s.stockMovements.filter (fun mv => mv.itemId == itemId)).foldl applyMovement 0

/-- The ledger/projection invariant: every inventory row holds exactly the
replay of its item's movements. -/
def projectionConsistent (s : DBState) : Prop :=
  ∀ r ∈ s.inventory, r.quantity = replay r.itemId s

instance decProjectionConsistent (s : DBState) : Decidable (projectionConsistent s) :=
  inferInstanceAs (Decidable (∀ r ∈ s.inventory, r.quantity = replay r.itemId s))

/-- The numeric suffix of a bill's number as the source would parse it. -/
def billSuffix (b : BillRow) : Option Nat := parseIntJS (suffixPart b.billNumber)

/-- The numeric suffix of a purchase's number as the source would parse it. -/
def purchaseSuffix (p : PurchaseRow) : Option Nat := parseIntJS (suffixPart p.purchaseNumber)

/-- Membership of a number in a series-and-year (its string starts with
e.g. `INV-2024-`), structurally on the character lists. -/
def startsWithJS (n yearPrefix : String) : Bool :=
  n.toList.take yearPrefix.toList.length == yearPrefix.toList

/-- Modelled from the spec (§4.3): the next number of a series is the
year-prefixed string whose suffix is one more than the highest previously
issued numeric suffix in that series for the given calendar year,
zero-padded to 3 digits, starting at `001` when the year has no prior
document.  Stated from the spec's words purely to compare against the
source's `getNextBillNumber`/`getNextPurchaseNumber`. -/
def specSeriesNext (pre : String) (year : Nat) (numbers : List String) : String :=
  (pre ++ "-" ++ toString year ++ "-") ++
    pad3 ((numbers.filterMap (fun n =>
      if startsWithJS n (pre ++ "-" ++ toString year ++ "-") then parseIntJS (suffixPart n)
      else none)).foldl Nat.max 0 + 1)

/-- The spec's next bill number for a given current calendar year. -/
def specNextBillNumber (year : Nat) (s : DBState) : String :=
  specSeriesNext "INV" year (s.bills.map BillRow.billNumber)

/-- The spec's next purchase number for a given current calendar year. -/
def specNextPurchaseNumber (year : Nat) (s : DBState) : String :=
  specSeriesNext "PUR" year (s.purchases.map PurchaseRow.purchaseNumber)

/-- The racy interleaving of two concurrent `POST /api/bills` handlers:
both await `getNextBillNumber` before either starts `createBill` — nothing
in the code prevents this schedule, since the allocation is a plain SELECT
with no lock, counter row, or reservation — after which the two creations
run back to back. -/
def raceTwoBills (u1 u2 : String) (bd1 bd2 : BillSubmission)
    (l1 l2 : List InsertBillItem) (s : DBState) :
    (String × String) × (Except DBErr BillRow × Except DBErr BillRow) × DBState :=
  let n1 := getNextBillNumber s
  let n2 := getNextBillNumber s
  let r1 := postBillWithNumber u1 bd1 n1 l1 s
  let r2 := postBillWithNumber u2 bd2 n2 l2 r1.2
  ((n1, n2), (r1.1, r2.1), r2.2)

/-- The same racy schedule for two concurrent `POST /api/purchases`
handlers. -/
def raceTwoPurchases (u1 u2 vnd1 vnd2 : String) (t1 t2 : Int)
    (l1 l2 : List InsertPurchaseItem) (s : DBState) :
    (String × String) × (Except DBErr PurchaseRow × Except DBErr PurchaseRow) × DBState :=
  let n1 := getNextPurchaseNumber s
  let n2 := getNextPurchaseNumber s
  let r1 := createPurchase
    { purchaseNumber := n1, vendorId := vnd1, total := t1, createdBy := u1 } l1 s
  let r2 := createPurchase
    { purchaseNumber := n2, vendorId := vnd2, total := t2, createdBy := u2 } l2 r1.2
  ((n1, n2), (r1.1, r2.1), r2.2)

/-- A small base state: one item, customer, vendor and user, the item's
inventory row at quantity 50, empty ledger and document stores. -/
def sBase : DBState :=
  { items := ["itm1"], customers := ["c1"], vendors := ["v1"], users := ["u1"],
    inventory := [{ itemId := "itm1", quantity := 50, lastUpdated := 0 }],
    stockMovements := [], bills := [], billItems := [],
    purchases := [], purchaseItems := [], now := 1 }

/-- Like `sBase` but with the inventory quantity justified by an inbound
ledger entry, so the projection invariant holds. -/
def sLedger : DBState :=
  { items := ["itm1"], customers := ["c1"], vendors := ["v1"], users := ["u1"],
    inventory := [{ itemId := "itm1", quantity := 50, lastUpdated := 0 }],
    stockMovements :=
      [{ id := 0, itemId := "itm1", type := "purchase", quantity := 50,
         reason := some "initial stock", createdAt := 0 }],
    bills := [], billItems := [], purchases := [], purchaseItems := [], now := 1 }

/-- An item known to the catalog but without an inventory row. -/
def sNoRow : DBState :=
  { items := ["itm2"], customers := [], vendors := [], users := [],
    inventory := [], stockMovements := [], bills := [], billItems := [],
    purchases := [], purchaseItems := [], now := 1 }

/-- A store whose two bills were created with decreasing numeric suffixes
(005 first, 003 later). -/
def sOutOfOrder : DBState :=
  { items := [], customers := ["c1"], vendors := [], users := ["u1"],
    inventory := [], stockMovements := [],
    bills :=
      [{ id := 0, billNumber := "INV-2024-005", customerId := "c1",
         subtotal := 0, gstAmount := 0, total := 0, status := "pending", createdAt := 0 },
       { id := 1, billNumber := "INV-2024-003", customerId := "c1",
         subtotal := 0, gstAmount := 0, total := 0, status := "pending", createdAt := 1 }],
    billItems := [], purchases := [], purchaseItems := [], now := 2 }

/-- A store produced by sequential use of the API: suffixes increase with
creation order in both series. -/
def sOrdered : DBState :=
  { items := [], customers := ["c1"], vendors := ["v1"], users := ["u1"],
    inventory := [], stockMovements := [],
    bills :=
      [{ id := 0, billNumber := "INV-2024-001", customerId := "c1",
         subtotal := 0, gstAmount := 0, total := 0, status := "pending", createdAt := 0 },
       { id := 1, billNumber := "INV-2024-002", customerId := "c1",
         subtotal := 0, gstAmount := 0, total := 0, status := "paid", createdAt := 1 }],
    billItems := [],
    purchases :=
      [{ id := 2, purchaseNumber := "PUR-2024-001", vendorId := "v1",
         total := 0, createdAt := 2 }],
    purchaseItems := [], now := 3 }

/-- A store holding a single bill already marked paid. -/
def sPaid : DBState :=
  { items := [], customers := ["c1"], vendors := [], users := ["u1"],
    inventory := [], stockMovements := [],
    bills :=
      [{ id := 0, billNumber := "INV-2024-001", customerId := "c1",
         subtotal := 100, gstAmount := 18, total := 118, status := "paid", createdAt := 0 }],
    billItems := [], purchases := [], purchaseItems := [], now := 1 }

/-- A well-formed bill submission against `sBase`. -/
def bdOk : BillSubmission :=
  { customerId := "c1", subtotal := 200, gstAmount := 36, total := 236, status := none }

/-- A well-formed line for the catalog item of `sBase`. -/
def liOk : InsertBillItem := { itemId := "itm1", quantity := 2, rate := 100, amount := 200 }

/-- A line whose itemId exists in no table: it passes zod validation
(strings are not checked against the catalog) and fails only at the
foreign key, after the bill header is already written. -/
def liGhost : InsertBillItem := { itemId := "ghost", quantity := 1, rate := 100, amount := 100 }

/-- The single bill of `sPaid` as it stands after being forced back to
`pending`. -/
def billPaidUpdated : BillRow :=
  { id := 0, billNumber := "INV-2024-001", customerId := "c1",
    subtotal := 100, gstAmount := 18, total := 118, status := "pending", createdAt := 0 }

/-!  Helper lemmas. -/

/-- Looking an item up after `updateInventory`'s row-wise rewrite finds the
rewritten version of whatever the lookup found before. -/
theorem find_map_update (itemId : String) (q : Int) (t : Nat) (l : List InventoryRow) :
    (l.map (fun r =>
        if r.itemId == itemId then { r with quantity := q, lastUpdated := t } else r)).find?
        (fun r => r.itemId == itemId)
      = (l.find? (fun r => r.itemId == itemId)).map
          (fun r => { r with quantity := q, lastUpdated := t }) := by
  induction l with
  | nil => rfl
  | cons r l ih =>
    simp only [List.map_cons]
    cases h : r.itemId == itemId with
    | true =>
      rw [if_pos rfl]
      simp only [List.find?, h]
      rfl
    | false =>
      rw [if_neg (by simp)]
      simp only [List.find?, h]
      exact ih

/-- Appending one ledger row changes the replay of exactly its item, by one
`applyMovement` step. -/
theorem replay_snoc (i : String) (s s2 : DBState) (row : StockMovementRow)
    (h : s2.stockMovements = s.stockMovements ++ [row]) :
    replay i s2 =
      if row.itemId == i then applyMovement (replay i s) row else replay i s := by
  unfold replay
  rw [h, List.filter_append, List.foldl_append]
  cases hc : row.itemId == i <;> simp [List.filter, hc]

/-- `updateInventory` does not touch the ledger, so replay is unchanged. -/
theorem replay_updateInventory (i j : String) (q : Int) (s : DBState) :
    replay i (updateInventory j q s).2 = replay i s := rfl

/-- `replay_snoc` specialised to the appended row's own item. -/
theorem replay_snoc_self (s s2 : DBState) (row : StockMovementRow)
    (h : s2.stockMovements = s.stockMovements ++ [row]) :
    replay row.itemId s2 = applyMovement (replay row.itemId s) row := by
  rw [replay_snoc row.itemId s s2 row h, if_pos (by simp)]

/-- `replay_snoc` specialised to any other item. -/
theorem replay_snoc_other (i : String) (s s2 : DBState) (row : StockMovementRow)
    (h2 : s2.stockMovements = s.stockMovements ++ [row]) (hne : row.itemId ≠ i) :
    replay i s2 = replay i s := by
  rw [replay_snoc i s s2 row h2, if_neg (by simp [hne])]

/-- `createStockMovement` on an unknown item is the FK failure with the
state untouched. -/
theorem createStockMovement_eq_fk (m : InsertStockMovement) (s : DBState)
    (hit : s.items.contains m.itemId = false) :
    createStockMovement m s = (.error .fkViolation, s) := by
  unfold createStockMovement insertStockMovementRow
  have hnc : ¬(s.items.contains m.itemId = true) := by rw [hit]; simp
  split
  · next x e s1 h =>
    rw [if_neg hnc] at h
    injection h with h1 h2
    injection h1 with h1
    subst h1
    subst h2
    rfl
  · next x row s1 h =>
    rw [if_neg hnc] at h
    injection h with h1 h2
    simp at h1

/-- `createStockMovement` on a known item with no inventory row appends the
ledger row and leaves the projection alone. -/
theorem createStockMovement_eq_noRow (m : InsertStockMovement) (s : DBState)
    (hit : s.items.contains m.itemId = true)
    (hf : findInv m.itemId s.inventory = none) :
    createStockMovement m s =
      (.ok ⟨s.now, m.itemId, m.type, m.quantity, m.reason, s.now⟩,
       { s with
         stockMovements :=
           s.stockMovements ++ [⟨s.now, m.itemId, m.type, m.quantity, m.reason, s.now⟩],
         now := s.now + 1 }) := by
  unfold createStockMovement insertStockMovementRow
  split
  · next x e s1 h =>
    rw [if_pos hit] at h
    injection h with h1 h2
    simp at h1
  · next x row s1 h =>
    rw [if_pos hit] at h
    injection h with h1 h2
    injection h1 with h1
    subst h1
    subst h2
    rw [show findInv m.itemId
          ({ s with
              stockMovements :=
                s.stockMovements ++ [⟨s.now, m.itemId, m.type, m.quantity, m.reason, s.now⟩],
              now := s.now + 1 } : DBState).inventory = none from hf]

/-- `createStockMovement` on a known item with an inventory row appends the
ledger row and writes back the clamped new quantity. -/
theorem createStockMovement_eq_row (m : InsertStockMovement) (s : DBState) (inv : InventoryRow)
    (hit : s.items.contains m.itemId = true)
    (hf : findInv m.itemId s.inventory = some inv) :
    createStockMovement m s =
      (.ok ⟨s.now, m.itemId, m.type, m.quantity, m.reason, s.now⟩,
       (updateInventory m.itemId
          (max 0
            (if m.type == "purchase" then inv.quantity + m.quantity
             else if m.type == "sale" then inv.quantity - m.quantity
             else if m.type == "adjustment" then m.quantity
             else inv.quantity))
          { s with
            stockMovements :=
              s.stockMovements ++ [⟨s.now, m.itemId, m.type, m.quantity, m.reason, s.now⟩],
            now := s.now + 1 }).2) := by
  unfold createStockMovement insertStockMovementRow
  split
  · next x e s1 h =>
    rw [if_pos hit] at h
    injection h with h1 h2
    simp at h1
  · next x row s1 h =>
    rw [if_pos hit] at h
    injection h with h1 h2
    injection h1 with h1
    subst h1
    subst h2
    rw [show findInv m.itemId
          ({ s with
              stockMovements :=
                s.stockMovements ++ [⟨s.now, m.itemId, m.type, m.quantity, m.reason, s.now⟩],
              now := s.now + 1 } : DBState).inventory = some inv from hf]

/-- After `updateInventory` the projection is consistent provided the
written value is the replay of its item and every other row already was. -/
theorem projectionConsistent_updateInventory (j : String) (q : Int) (t : DBState)
    (hmatch : q = replay j t)
    (hrest : ∀ r ∈ t.inventory, (r.itemId == j) = false → r.quantity = replay r.itemId t) :
    projectionConsistent (updateInventory j q t).2 := by
  intro r2 hr2
  have hr2m : r2 ∈ t.inventory.map (fun r =>
      if r.itemId == j then { r with quantity := q, lastUpdated := t.now } else r) := hr2
  obtain ⟨r, hr, hfr⟩ := List.mem_map.mp hr2m
  cases hc : r.itemId == j with
  | true =>
    rw [if_pos hc] at hfr
    subst hfr
    have hid : r.itemId = j := by simpa using hc
    show q = replay r.itemId (updateInventory j q t).2
    rw [replay_updateInventory, hid]
    exact hmatch
  | false =>
    rw [if_neg (by simp [hc])] at hfr
    subst hfr
    show r.quantity = replay r.itemId (updateInventory j q t).2
    rw [replay_updateInventory]
    exact hrest r hr hc

/-- Claim C3 (amended): recording a stock movement through
`createStockMovement` preserves the ledger/projection invariant — replaying
all of an item's movements in creation order from 0, with per-step clamping
at 0, reproduces every inventory row — but the invariant is not preserved
by every operation of the system: the direct projection write
`updateInventory` (`PATCH /api/inventory/:itemId`) adds no ledger entry and
breaks it (see the counterexample). -/
theorem createStockMovement_preserves_projection (m : InsertStockMovement) (s : DBState)
    (h : projectionConsistent s) :
    projectionConsistent (createStockMovement m s).2 := by
  cases hit : s.items.contains m.itemId with
  | false =>
    rw [createStockMovement_eq_fk m s hit]
    exact h
  | true =>
    cases hf : findInv m.itemId s.inventory with
    | none =>
      rw [createStockMovement_eq_noRow m s hit hf]
      intro r hr
      have hnm := List.find?_eq_none.mp hf r hr
      have hne : r.itemId ≠ m.itemId := by simpa using hnm
      rw [replay_snoc_other r.itemId s _ _ rfl
            (show m.itemId ≠ r.itemId from fun hh => hne hh.symm)]
      exact h r hr
    | some inv =>
      have hmem : inv ∈ s.inventory := List.mem_of_find?_eq_some hf
      have hinvid : inv.itemId = m.itemId := by simpa using List.find?_some hf
      have hbase : inv.quantity = replay m.itemId s := by
        have hb := h inv hmem
        rwa [hinvid] at hb
      rw [createStockMovement_eq_row m s inv hit hf]
      apply projectionConsistent_updateInventory
      · rw [show replay m.itemId
              ({ s with
                  stockMovements :=
                    s.stockMovements ++ [⟨s.now, m.itemId, m.type, m.quantity, m.reason, s.now⟩],
                  now := s.now + 1 } : DBState) =
            applyMovement (replay m.itemId s)
              ⟨s.now, m.itemId, m.type, m.quantity, m.reason, s.now⟩ from
          replay_snoc_self s _ ⟨s.now, m.itemId, m.type, m.quantity, m.reason, s.now⟩ rfl,
        hbase]
        rfl
      · intro r hr hcf
        have hne : r.itemId ≠ m.itemId := by simpa using hcf
        rw [replay_snoc_other r.itemId s _ _ rfl
              (show m.itemId ≠ r.itemId from fun hh => hne hh.symm)]
        exact h r hr

/-- Looking the item up after `updateInventory` yields the rewritten row. -/
theorem findInv_updateInventory (j : String) (q : Int) (t : DBState) :
    findInv j (updateInventory j q t).2.inventory =
      (findInv j t.inventory).map (fun r => { r with quantity := q, lastUpdated := t.now }) :=
  find_map_update j q t.now t.inventory

/-- The projection row after a stock movement on an item that has one. -/
theorem createStockMovement_row_result (m : InsertStockMovement) (s : DBState)
    (inv : InventoryRow)
    (hit : s.items.contains m.itemId = true)
    (hf : findInv m.itemId s.inventory = some inv) :
    findInv m.itemId (createStockMovement m s).2.inventory =
      some { inv with
        quantity := max 0
          (if m.type == "purchase" then inv.quantity + m.quantity
           else if m.type == "sale" then inv.quantity - m.quantity
           else if m.type == "adjustment" then m.quantity
           else inv.quantity),
        lastUpdated := s.now + 1 } := by
  rw [createStockMovement_eq_row m s inv hit hf, findInv_updateInventory]
  rw [show ({ s with
      stockMovements :=
        s.stockMovements ++ [⟨s.now, m.itemId, m.type, m.quantity, m.reason, s.now⟩],
      now := s.now + 1 } : DBState).inventory = s.inventory from rfl]
  rw [hf]
  rfl

/-- Claim C3 witness: a consistent concrete store stays consistent through
a concrete sale. -/
theorem createStockMovement_preserves_projection_w :
    projectionConsistent sLedger ∧
    projectionConsistent (createStockMovement ⟨"itm1", "sale", 8, none⟩ sLedger).2 :=
  ⟨by decide,
   createStockMovement_preserves_projection ⟨"itm1", "sale", 8, none⟩ sLedger (by decide)⟩

/-- Claim C3 counterexample: the direct inventory write of
`PATCH /api/inventory/:itemId` (`updateInventory`) turns a consistent store
into one where the projection (5) no longer equals the ledger replay (50),
so the invariant is not preserved by every operation of the system. -/
theorem updateInventory_breaks_projection :
    projectionConsistent sLedger ∧
    ¬ projectionConsistent (updateInventory "itm1" 5 sLedger).2 := by decide

/-- Claim C4 (confirmed): recording a sale movement for an item with an
inventory row sets the projected quantity to `max 0 (current - quantity)`;
in particular a sale larger than the current projected quantity leaves
exactly 0, never a negative value. -/
theorem sale_clamps_at_zero (m : InsertStockMovement) (s : DBState) (inv : InventoryRow)
    (hty : m.type = "sale")
    (hit : s.items.contains m.itemId = true)
    (hfound : findInv m.itemId s.inventory = some inv) :
    ∃ newRow, findInv m.itemId (createStockMovement m s).2.inventory = some newRow ∧
      newRow.quantity = max 0 (inv.quantity - m.quantity) ∧
      (inv.quantity < m.quantity → newRow.quantity = 0) := by
  refine ⟨_, createStockMovement_row_result m s inv hit hfound, ?_, ?_⟩
  · simp [hty]
  · intro hlt
    simp only [hty]
    simp only [show (("sale" : String) == "purchase") = false from rfl,
               show (("sale" : String) == "sale") = true from rfl]
    show max 0 (inv.quantity - m.quantity) = 0
    rw [max_def]
    split <;> omega

/-- Claim C4 witness: selling 60 of the 50 on hand leaves exactly 0. -/
theorem sale_clamps_at_zero_w :
    findInv "itm1" sLedger.inventory = some ⟨"itm1", 50, 0⟩ ∧
    ∃ newRow,
      findInv "itm1" (createStockMovement ⟨"itm1", "sale", 60, none⟩ sLedger).2.inventory =
        some newRow ∧
      newRow.quantity = max 0 (50 - 60) ∧
      (50 < 60 → newRow.quantity = 0) := by
  refine ⟨by decide, ?_⟩
  have h := sale_clamps_at_zero ⟨"itm1", "sale", 60, none⟩ sLedger ⟨"itm1", 50, 0⟩ rfl
    (by decide) (by decide)
  simpa using h

/-- Claim C5 (amended): a movement for a nonexistent itemId fails at the
foreign-key constraint with no movement written; but quantity is never
validated — for any known item, a movement of any integer quantity
(including 0 and negatives, for every type string) is accepted and its
ledger row written. -/
theorem stockMovement_no_quantity_validation :
    (∀ (m : InsertStockMovement) (s : DBState),
        s.items.contains m.itemId = false →
        createStockMovement m s = (.error .fkViolation, s)) ∧
    (∀ (m : InsertStockMovement) (s : DBState),
        s.items.contains m.itemId = true →
        ∃ row, (createStockMovement m s).1 = .ok row ∧ row.quantity = m.quantity ∧
          (createStockMovement m s).2.stockMovements = s.stockMovements ++ [row]) := by
  constructor
  · exact fun m s h => createStockMovement_eq_fk m s h
  · intro m s hit
    cases hf : findInv m.itemId s.inventory with
    | none =>
      rw [createStockMovement_eq_noRow m s hit hf]
      exact ⟨_, rfl, rfl, rfl⟩
    | some inv =>
      rw [createStockMovement_eq_row m s inv hit hf]
      exact ⟨_, rfl, rfl, rfl⟩

/-- Claim C5 witness: the unknown item is rejected with nothing written,
and a zero-quantity sale for a known item is accepted and written. -/
theorem stockMovement_no_quantity_validation_w :
    createStockMovement ⟨"ghost", "sale", 1, none⟩ sBase = (.error .fkViolation, sBase) ∧
    ∃ row, (createStockMovement ⟨"itm1", "sale", 0, none⟩ sBase).1 = .ok row ∧
      row.quantity = 0 ∧
      (createStockMovement ⟨"itm1", "sale", 0, none⟩ sBase).2.stockMovements = [] ++ [row] :=
  ⟨stockMovement_no_quantity_validation.1 ⟨"ghost", "sale", 1, none⟩ sBase (by decide),
   stockMovement_no_quantity_validation.2 ⟨"itm1", "sale", 0, none⟩ sBase (by decide)⟩

/-- Claim C5 counterexample: a sale of quantity -5 — which the claim says
must fail with a validation error and write nothing — succeeds, its ledger
row is written, and the projection even increases from 50 to 55. -/
theorem negative_sale_accepted :
    errOf (createStockMovement ⟨"itm1", "sale", -5, none⟩ sBase).1 = none ∧
    (createStockMovement ⟨"itm1", "sale", -5, none⟩ sBase).2.stockMovements.length = 1 ∧
    (findInv "itm1" (createStockMovement ⟨"itm1", "sale", -5, none⟩ sBase).2.inventory).map
        InventoryRow.quantity = some 55 := by decide

/-- Claim C10 (amended): for a movement whose itemId exists in the catalog
but has no inventory row, `createStockMovement` inserts the ledger row and
returns it successfully, leaving the inventory table untouched; if the item
does not exist at all — the only other way to have no inventory row — the
insert instead fails on the foreign key (see the counterexample). -/
theorem movement_without_inventory_row (m : InsertStockMovement) (s : DBState)
    (hit : s.items.contains m.itemId = true)
    (hnorow : findInv m.itemId s.inventory = none) :
    ∃ row, (createStockMovement m s).1 = .ok row ∧
      (createStockMovement m s).2.stockMovements = s.stockMovements ++ [row] ∧
      (createStockMovement m s).2.inventory = s.inventory := by
  rw [createStockMovement_eq_noRow m s hit hnorow]
  exact ⟨_, rfl, rfl, rfl⟩

/-- Claim C10 witness: a sale of a catalog item with no inventory row is
recorded in the ledger with the inventory list left empty. -/
theorem movement_without_inventory_row_w :
    findInv "itm2" sNoRow.inventory = none ∧
    ∃ row, (createStockMovement ⟨"itm2", "sale", 5, none⟩ sNoRow).1 = .ok row ∧
      (createStockMovement ⟨"itm2", "sale", 5, none⟩ sNoRow).2.stockMovements = [] ++ [row] ∧
      (createStockMovement ⟨"itm2", "sale", 5, none⟩ sNoRow).2.inventory = [] :=
  ⟨by decide,
   movement_without_inventory_row ⟨"itm2", "sale", 5, none⟩ sNoRow (by decide) (by decide)⟩

/-- Claim C10 counterexample: an itemId absent from the catalog also has no
inventory row, yet the movement is not inserted — the insert fails on the
`item_id` foreign key and the ledger stays empty. -/
theorem movement_unknown_item_fails :
    findInv "ghost" sBase.inventory = none ∧
    errOf (createStockMovement ⟨"ghost", "adjustment", 3, none⟩ sBase).1 =
      some .fkViolation ∧
    (createStockMovement ⟨"ghost", "adjustment", 3, none⟩ sBase).2.stockMovements = [] := by
  decide

/-- Claim C1 (code bug): under the racy but unprevented schedule in which
two concurrent bill (resp. purchase) creations both run the allocator
before either inserts, both allocations return the same number —
`INV-2024-001` twice from an empty store — so the second insert dies on
the unique constraint instead of receiving a distinct number: issuing 2
concurrent documents does not yield 2 distinct numbers in either series. -/
theorem bill_number_race_collides :
    (raceTwoBills "u1" "u1" bdOk bdOk [liOk] [liOk] sBase).1 =
      ("INV-2024-001", "INV-2024-001") ∧
    errOf (raceTwoBills "u1" "u1" bdOk bdOk [liOk] [liOk] sBase).2.1.1 = none ∧
    errOf (raceTwoBills "u1" "u1" bdOk bdOk [liOk] [liOk] sBase).2.1.2 =
      some .uniqueViolation ∧
    (raceTwoPurchases "u1" "u1" "v1" "v1" 15 20 [⟨"itm1", 3, 5, 15⟩] [⟨"itm1", 4, 5, 20⟩]
        sBase).1 = ("PUR-2024-001", "PUR-2024-001") ∧
    errOf (raceTwoPurchases "u1" "u1" "v1" "v1" 15 20 [⟨"itm1", 3, 5, 15⟩] [⟨"itm1", 4, 5, 20⟩]
        sBase).2.1.2 = some .uniqueViolation := by decide

/-- Claim C2 (code bug): a `POST /api/bills` whose single line names a
nonexistent item passes zod validation, writes the bill header, then fails
on the line-items foreign key — and, with no transaction, the header stays:
a Bill with the allocated number is visible with no line items and no
stock movements, where the claim requires all-or-nothing. -/
theorem createBill_partial_failure_leaves_header :
    errOf (postBill "u1" bdOk [liGhost] sBase).1 = some .fkViolation ∧
    (postBill "u1" bdOk [liGhost] sBase).2.bills.map BillRow.billNumber = ["INV-2024-001"] ∧
    (postBill "u1" bdOk [liGhost] sBase).2.billItems = [] ∧
    (postBill "u1" bdOk [liGhost] sBase).2.stockMovements = [] := by decide

/-- Claim C7 (confirmed): the next-number endpoints are pure previews —
they return the state they were given, calling one twice with no
intervening writes returns the same number, and the returned number
depends only on the bills (resp. purchases) table. -/
theorem next_number_preview_pure (s t : DBState)
    (hb : s.bills = t.bills) (hp : s.purchases = t.purchases) :
    (getNextBillNumberRoute s).2 = s ∧
    (getNextPurchaseNumberRoute s).2 = s ∧
    (getNextBillNumberRoute ((getNextBillNumberRoute s).2)).1 = (getNextBillNumberRoute s).1 ∧
    (getNextPurchaseNumberRoute ((getNextPurchaseNumberRoute s).2)).1 =
      (getNextPurchaseNumberRoute s).1 ∧
    getNextBillNumber s = getNextBillNumber t ∧
    getNextPurchaseNumber s = getNextPurchaseNumber t := by
  refine ⟨rfl, rfl, rfl, rfl, ?_, ?_⟩
  · unfold getNextBillNumber
    rw [hb]
  · unfold getNextPurchaseNumber
    rw [hp]

/-- Claim C7 witness: the preview leaves the base store unchanged and
ignores everything outside the document tables. -/
theorem next_number_preview_pure_w :
    (getNextBillNumberRoute sBase).2 = sBase ∧
    getNextBillNumber sBase =
      getNextBillNumber { sBase with inventory := [], now := 77 } := by
  have h := next_number_preview_pure sBase { sBase with inventory := [], now := 77 } rfl rfl
  exact ⟨h.1, h.2.2.2.2.1⟩

/-- Claim C8 (amended): `updateBillStatus` never touches the ledger,
inventory or line items, leaves bills with other ids unchanged, and sets
the status of the addressed bill to the given string unconditionally — it
enforces no state machine, so `paid` and `cancelled` are not terminal (see
the counterexample). -/
theorem updateBillStatus_unconditional (id : Nat) (status : String) (s : DBState) :
    (updateBillStatus id status s).2.stockMovements = s.stockMovements ∧
    (updateBillStatus id status s).2.inventory = s.inventory ∧
    (updateBillStatus id status s).2.billItems = s.billItems ∧
    (∀ b ∈ s.bills, (b.id == id) = false → b ∈ (updateBillStatus id status s).2.bills) ∧
    (∀ b2 ∈ (updateBillStatus id status s).2.bills, (b2.id == id) = true →
      b2.status = status) := by
  refine ⟨rfl, rfl, rfl, ?_, ?_⟩
  · intro b hb hne
    have hm : b ∈ s.bills.map (fun x => if x.id == id then { x with status := status } else x) :=
      List.mem_map.mpr ⟨b, hb, by rw [if_neg (by simp [hne])]⟩
    exact hm
  · intro b2 hb2 hid
    have hb2m : b2 ∈ s.bills.map
        (fun x => if x.id == id then { x with status := status } else x) := hb2
    obtain ⟨b, hb, hfb⟩ := List.mem_map.mp hb2m
    cases hc : b.id == id with
    | true =>
      rw [if_pos hc] at hfb
      rw [← hfb]
    | false =>
      rw [if_neg (by simp [hc])] at hfb
      subst hfb
      simp [hc] at hid

/-- Claim C8 witness: the concrete overwrite keeps the ledger untouched and
the addressed bill carries exactly the requested status. -/
theorem updateBillStatus_unconditional_w :
    (updateBillStatus 0 "pending" sPaid).2.stockMovements = sPaid.stockMovements ∧
    billPaidUpdated.status = "pending" :=
  ⟨(updateBillStatus_unconditional 0 "pending" sPaid).1,
   (updateBillStatus_unconditional 0 "pending" sPaid).2.2.2.2 billPaidUpdated (by decide)
     (by decide)⟩

/-- Claim C8 counterexample: a bill already `paid` is moved back to
`pending` by `updateBillStatus`, so `Paid` is not terminal and the
Pending→Paid/Cancelled machine is not enforced. -/
theorem paid_to_pending_allowed :
    sPaid.bills.map BillRow.status = ["paid"] ∧
    (updateBillStatus 0 "pending" sPaid).1 = some billPaidUpdated ∧
    (updateBillStatus 0 "pending" sPaid).2.bills.map BillRow.status = ["pending"] := by
  decide

/-- A bill-header insert that violates no constraint appends the row. -/
theorem insertBill_ok (b : InsertBill) (s : DBState)
    (hfresh : s.bills.any (fun x => x.billNumber == b.billNumber) = false)
    (hcust : s.customers.contains b.customerId = true)
    (huser : s.users.contains b.createdBy = true) :
    insertBill b s =
      (.ok ⟨s.now, b.billNumber, b.customerId, b.subtotal, b.gstAmount, b.total,
            b.status.getD "pending", s.now⟩,
       { s with
         bills := s.bills ++ [⟨s.now, b.billNumber, b.customerId, b.subtotal, b.gstAmount,
           b.total, b.status.getD "pending", s.now⟩],
         now := s.now + 1 }) := by
  unfold insertBill
  rw [hfresh, hcust, huser]
  rfl

/-- `createBill` on an empty line list: the header is written by the first
statement, then drizzle's `.values([])` error aborts the call with no
rollback. -/
theorem createBill_empty_lines (b : InsertBill) (s : DBState)
    (hfresh : s.bills.any (fun x => x.billNumber == b.billNumber) = false)
    (hcust : s.customers.contains b.customerId = true)
    (huser : s.users.contains b.createdBy = true) :
    createBill b [] s =
      (.error .emptyValues,
       { s with
         bills := s.bills ++ [⟨s.now, b.billNumber, b.customerId, b.subtotal, b.gstAmount,
           b.total, b.status.getD "pending", s.now⟩],
         now := s.now + 1 }) := by
  unfold createBill
  rw [insertBill_ok b s hfresh hcust huser]
  rfl

/-- Claim C9 (amended): a submission containing a line with quantity < 1 or
rate < 0 is rejected by the zod schemas before any write, with the state
unchanged; but an empty line list passes validation — the bill header is
then written, the empty line insert fails, and the header stays persisted
with no line items and no stock movements. -/
theorem postBill_validation :
    (∀ (u : String) (bd : BillSubmission) (lines : List InsertBillItem) (s : DBState),
        (∃ li ∈ lines, li.quantity < 1 ∨ li.rate < 0) →
        postBill u bd lines s = (.error .validationError, s)) ∧
    (∀ (u : String) (bd : BillSubmission) (s : DBState),
        validBillData bd = true →
        s.customers.contains bd.customerId = true →
        s.users.contains u = true →
        s.bills.any (fun x => x.billNumber == getNextBillNumber s) = false →
        errOf (postBill u bd [] s).1 = some .emptyValues ∧
        ∃ row, (postBill u bd [] s).2.bills = s.bills ++ [row] ∧
          row.billNumber = getNextBillNumber s ∧
          (postBill u bd [] s).2.billItems = s.billItems ∧
          (postBill u bd [] s).2.stockMovements = s.stockMovements) := by
  constructor
  · intro u bd lines s hbad
    obtain ⟨li, hmem, hlt⟩ := hbad
    have hall : lines.all validBillItemData = false := by
      cases hca : lines.all validBillItemData with
      | false => rfl
      | true =>
        have hv := List.all_eq_true.mp hca li hmem
        simp [validBillItemData] at hv
        rcases hlt with h1 | h1 <;> omega
    unfold postBill postBillWithNumber
    rw [hall, Bool.and_false]
    rfl
  · intro u bd s hvd hcust huser hfresh
    have hcb := createBill_empty_lines
      ⟨getNextBillNumber s, bd.customerId, bd.subtotal, bd.gstAmount, bd.total, bd.status, u⟩
      s (by exact hfresh) hcust huser
    have hpost : postBill u bd [] s =
        (.error .emptyValues,
         { s with
           bills := s.bills ++ [⟨s.now, getNextBillNumber s, bd.customerId, bd.subtotal,
             bd.gstAmount, bd.total, bd.status.getD "pending", s.now⟩],
           now := s.now + 1 }) := by
      unfold postBill postBillWithNumber
      rw [hvd]
      exact hcb
    rw [hpost]
    exact ⟨rfl, ⟨s.now, getNextBillNumber s, bd.customerId, bd.subtotal, bd.gstAmount,
      bd.total, bd.status.getD "pending", s.now⟩, rfl, rfl, rfl, rfl⟩

/-- Claim C9 witness: a zero-quantity line is rejected with the state
unchanged, while the empty-lines submission errors only after the header
insert, which persists. -/
theorem postBill_validation_w :
    postBill "u1" bdOk [⟨"itm1", 0, 100, 0⟩] sBase = (.error .validationError, sBase) ∧
    errOf (postBill "u1" bdOk [] sBase).1 = some .emptyValues ∧
    ∃ row, (postBill "u1" bdOk [] sBase).2.bills = sBase.bills ++ [row] :=
  ⟨postBill_validation.1 "u1" bdOk [⟨"itm1", 0, 100, 0⟩] sBase
     ⟨⟨"itm1", 0, 100, 0⟩, by decide, by decide⟩,
   (postBill_validation.2 "u1" bdOk sBase (by decide) (by decide) (by decide) (by decide)).1,
   ⟨((postBill_validation.2 "u1" bdOk sBase (by decide) (by decide) (by decide)
        (by decide)).2).choose,
    ((postBill_validation.2 "u1" bdOk sBase (by decide) (by decide) (by decide)
        (by decide)).2).choose_spec.1⟩⟩

/-- Claim C9 counterexample: the empty-line-list submission — which the
claim says is rejected as a validation error with no bill header written —
instead writes a bill header numbered INV-2024-001 before failing. -/
theorem empty_lines_writes_header :
    sBase.bills = [] ∧
    errOf (postBill "u1" bdOk [] sBase).1 = some .emptyValues ∧
    (postBill "u1" bdOk [] sBase).2.bills.map BillRow.billNumber = ["INV-2024-001"] := by
  decide

/-- For strictly increasing timestamps, the latest row is the last one. -/
theorem latestBy_eq_getLast {α : Type} (f : α → Nat) :
    ∀ (l : List α), l.Pairwise (fun a b => f a < f b) → latestBy f l = l.getLast?
  | [], _ => rfl
  | [_], _ => rfl
  | x :: y :: ys, h => by
    rw [List.pairwise_cons] at h
    have ih := latestBy_eq_getLast f (y :: ys) h.2
    have hne : (y :: ys) ≠ [] := by simp
    have hz := List.getLast?_eq_getLast (y :: ys) hne
    have hlt : f x < f ((y :: ys).getLast hne) := h.1 _ (List.getLast_mem hne)
    have hlat : latestBy f (y :: ys) = some ((y :: ys).getLast hne) := by rw [ih, hz]
    unfold latestBy
    rw [hlat]
    show (if f x > f ((y :: ys).getLast hne) then some x
          else some ((y :: ys).getLast hne)) = (x :: y :: ys).getLast?
    rw [if_neg (by omega), List.getLast?_cons_cons, hz]

/-- Folding `max` from any seed factors through the seed. -/
theorem foldl_max_init : ∀ (l : List Nat) (a : Nat),
    l.foldl Nat.max a = Nat.max a (l.foldl Nat.max 0)
  | [], a => by simp
  | x :: xs, a => by
    show xs.foldl Nat.max (Nat.max a x) = Nat.max a ((x :: xs).foldl Nat.max 0)
    rw [foldl_max_init xs (Nat.max a x)]
    show Nat.max (Nat.max a x) (xs.foldl Nat.max 0) =
      Nat.max a (xs.foldl Nat.max (Nat.max 0 x))
    rw [foldl_max_init xs (Nat.max 0 x)]
    rw [show Nat.max 0 x = x from Nat.zero_max x]
    rw [show ∀ p q r : Nat, Nat.max (Nat.max p q) r = Nat.max p (Nat.max q r) from
      fun p q r => Nat.max_assoc p q r]

/-- The maximum of a strictly increasing list is its last element. -/
theorem foldl_max_sorted : ∀ (l : List Nat), l.Pairwise (· < ·) →
    ∀ m, l.getLast? = some m → l.foldl Nat.max 0 = m
  | [], _, _, hm => by simp at hm
  | [x], _, m, hm => by
    simp at hm
    subst hm
    show Nat.max 0 x = x
    exact Nat.zero_max x
  | x :: y :: ys, hp, m, hm => by
    rw [List.pairwise_cons] at hp
    rw [List.getLast?_cons_cons] at hm
    have ih := foldl_max_sorted (y :: ys) hp.2 m hm
    have hne : (y :: ys) ≠ [] := by simp
    have hmm : m ∈ y :: ys := by
      rw [List.getLast?_eq_getLast (y :: ys) hne] at hm
      injection hm with hm2
      rw [← hm2]
      exact List.getLast_mem hne
    have hlt : x < m := hp.1 m hmm
    show (y :: ys).foldl Nat.max (Nat.max 0 x) = m
    rw [foldl_max_init, ih, show Nat.max 0 x = x from Nat.zero_max x]
    exact Nat.max_eq_right (Nat.le_of_lt hlt)

/-- A `filterMap` that never filters is a `map`. -/
theorem filterMap_eq_map_of_some {α β : Type} (G : α → Option β) (v : α → β) :
    ∀ (l : List α), (∀ x ∈ l, G x = some (v x)) → l.filterMap G = l.map v
  | [], _ => rfl
  | x :: xs, h => by
    rw [List.filterMap_cons_some (h x (by simp)), List.map_cons,
        filterMap_eq_map_of_some G v xs (fun y hy => h y (by simp [hy]))]

/-- In a store whose document numbers all carry the series year-prefix,
have parseable suffixes, and were created in strictly increasing suffix
order, the spec's highest-suffix computation returns the suffix of the most
recently created row. -/
theorem seriesNext_sorted {ρ : Type} (number : ρ → String)
    (yearPrefix : String) (rows : List ρ) (last : ρ)
    (hlast : rows.getLast? = some last)
    (hpre : ∀ r ∈ rows, startsWithJS (number r) yearPrefix = true)
    (hparse : ∀ r ∈ rows, (parseIntJS (suffixPart (number r))).isSome = true)
    (hsorted : rows.Pairwise (fun a b =>
      (parseIntJS (suffixPart (number a))).getD 0 <
        (parseIntJS (suffixPart (number b))).getD 0)) :
    ((rows.map number).filterMap (fun n =>
        if startsWithJS n yearPrefix then parseIntJS (suffixPart n) else none)).foldl Nat.max 0
      = (parseIntJS (suffixPart (number last))).getD 0 := by
  rw [List.filterMap_map]
  rw [filterMap_eq_map_of_some _
        (fun r => (parseIntJS (suffixPart (number r))).getD 0) rows ?hsome]
  case hsome =>
    intro r hr
    show (if startsWithJS (number r) yearPrefix then parseIntJS (suffixPart (number r))
          else none) = some ((parseIntJS (suffixPart (number r))).getD 0)
    rw [if_pos (hpre r hr)]
    obtain ⟨k, hk⟩ := Option.isSome_iff_exists.mp (hparse r hr)
    rw [hk]
    rfl
  exact foldl_max_sorted
    (rows.map (fun r => (parseIntJS (suffixPart (number r))).getD 0))
    ((List.pairwise_map).mpr hsorted)
    ((parseIntJS (suffixPart (number last))).getD 0)
    (by rw [List.getLast?_map, hlast]; rfl)

/-- Claim C6 (amended): `getNextBillNumber`/`getNextPurchaseNumber` always
use the hardcoded year 2024 — whatever the calendar year — and increment
the numeric suffix of the most recently created document rather than the
per-year maximum, starting from `INV-2024-001` / `PUR-2024-001` on an empty
store.  On stores produced by sequential use of this API — every number
carries the 2024 series prefix with a parseable suffix, and suffixes
strictly increase in creation order — this agrees with the claim's
highest-suffix-plus-one rule at year 2024; in general it does not (see the
counterexample). -/
theorem nextNumber_agrees_when_ordered (s : DBState)
    (hbm : s.bills.Pairwise (fun a b => a.createdAt < b.createdAt))
    (hbp : ∀ b ∈ s.bills, startsWithJS b.billNumber "INV-2024-" = true)
    (hbs : ∀ b ∈ s.bills, (billSuffix b).isSome = true)
    (hbo : s.bills.Pairwise (fun a b => (billSuffix a).getD 0 < (billSuffix b).getD 0))
    (hpm : s.purchases.Pairwise (fun a b => a.createdAt < b.createdAt))
    (hpp : ∀ p ∈ s.purchases, startsWithJS p.purchaseNumber "PUR-2024-" = true)
    (hps : ∀ p ∈ s.purchases, (purchaseSuffix p).isSome = true)
    (hpo : s.purchases.Pairwise (fun a b =>
      (purchaseSuffix a).getD 0 < (purchaseSuffix b).getD 0)) :
    getNextBillNumber s = specNextBillNumber 2024 s ∧
    getNextPurchaseNumber s = specNextPurchaseNumber 2024 s := by
  have hyB : ("INV" ++ "-" ++ toString (2024 : Nat) ++ "-") = "INV-2024-" := by decide
  have hyP : ("PUR" ++ "-" ++ toString (2024 : Nat) ++ "-") = "PUR-2024-" := by decide
  constructor
  · unfold getNextBillNumber specNextBillNumber specSeriesNext
    rw [hyB]
    cases hsb : s.bills with
    | nil => decide
    | cons x xs =>
      rw [hsb] at hbm hbp hbs hbo
      have hne : (x :: xs) ≠ [] := by simp
      have hlast := List.getLast?_eq_getLast (x :: xs) hne
      have hlatest : latestBy BillRow.createdAt (x :: xs) = some ((x :: xs).getLast hne) := by
        rw [latestBy_eq_getLast _ _ hbm, hlast]
      rw [hlatest]
      have hmem : (x :: xs).getLast hne ∈ x :: xs := List.getLast_mem hne
      obtain ⟨k, hk⟩ := Option.isSome_iff_exists.mp (hbs _ hmem)
      have hfold := seriesNext_sorted BillRow.billNumber "INV-2024-" (x :: xs)
        ((x :: xs).getLast hne) hlast hbp hbs hbo
      rw [hfold]
      show (match parseIntJS (suffixPart ((x :: xs).getLast hne).billNumber) with
            | some lastNumber => "INV-2024-" ++ pad3 (lastNumber + 1)
            | none => "INV-2024-NaN") =
          "INV-2024-" ++
            pad3 ((parseIntJS (suffixPart ((x :: xs).getLast hne).billNumber)).getD 0 + 1)
      rw [show parseIntJS (suffixPart ((x :: xs).getLast hne).billNumber) = some k from hk]
      rfl
  · unfold getNextPurchaseNumber specNextPurchaseNumber specSeriesNext
    rw [hyP]
    cases hsp : s.purchases with
    | nil => decide
    | cons x xs =>
      rw [hsp] at hpm hpp hps hpo
      have hne : (x :: xs) ≠ [] := by simp
      have hlast := List.getLast?_eq_getLast (x :: xs) hne
      have hlatest : latestBy PurchaseRow.createdAt (x :: xs) =
          some ((x :: xs).getLast hne) := by
        rw [latestBy_eq_getLast _ _ hpm, hlast]
      rw [hlatest]
      have hmem : (x :: xs).getLast hne ∈ x :: xs := List.getLast_mem hne
      obtain ⟨k, hk⟩ := Option.isSome_iff_exists.mp (hps _ hmem)
      have hfold := seriesNext_sorted PurchaseRow.purchaseNumber "PUR-2024-" (x :: xs)
        ((x :: xs).getLast hne) hlast hpp hps hpo
      rw [hfold]
      show (match parseIntJS (suffixPart ((x :: xs).getLast hne).purchaseNumber) with
            | some lastNumber => "PUR-2024-" ++ pad3 (lastNumber + 1)
            | none => "PUR-2024-NaN") =
          "PUR-2024-" ++
            pad3 ((parseIntJS (suffixPart ((x :: xs).getLast hne).purchaseNumber)).getD 0 + 1)
      rw [show parseIntJS (suffixPart ((x :: xs).getLast hne).purchaseNumber) = some k from hk]
      rfl

/-- Claim C6 witness: on a sequentially numbered store the code and the
spec formula agree, in both series. -/
theorem nextNumber_agrees_when_ordered_w :
    getNextBillNumber sOrdered = specNextBillNumber 2024 sOrdered ∧
    getNextBillNumber sOrdered = "INV-2024-003" ∧
    getNextPurchaseNumber sOrdered = specNextPurchaseNumber 2024 sOrdered ∧
    getNextPurchaseNumber sOrdered = "PUR-2024-002" := by
  have h := nextNumber_agrees_when_ordered sOrdered (by decide) (by decide) (by decide)
    (by decide) (by decide) (by decide) (by decide) (by decide)
  exact ⟨h.1, by decide, h.2, by decide⟩

/-- Claim C6 counterexample: with bills created in decreasing suffix order
(`005` before `003`) the code returns the latest-created suffix plus one
(`INV-2024-004`) while the claim's highest-suffix rule gives
`INV-2024-006`; and on an empty store the code's answer is `INV-2024-001`
regardless of the calendar year, differing from the claimed
`PREFIX-YEAR-NNN` already at year 2025. -/
theorem nextNumber_not_highest :
    getNextBillNumber sOutOfOrder = "INV-2024-004" ∧
    specNextBillNumber 2024 sOutOfOrder = "INV-2024-006" ∧
    getNextBillNumber sOutOfOrder ≠ specNextBillNumber 2024 sOutOfOrder ∧
    getNextBillNumber { sOutOfOrder with bills := [] } = "INV-2024-001" ∧
    specNextBillNumber 2025 { sOutOfOrder with bills := [] } = "INV-2025-001" ∧
    getNextBillNumber { sOutOfOrder with bills := [] } ≠
      specNextBillNumber 2025 { sOutOfOrder with bills := [] } := by decide

end ERP
